import Mathlib

/-!
Verification of the ODRL policy conformance and repair engine:
a shallow embedding of `agents/validator/odrl_validation_tool.py`,
`agents/validator/validator_agent.py` and
`agents/reasoner/conflict_types.py`, with theorems about its
validation report invariants, repair-loop budget behaviour,
conflict classification and error handling.

External collaborators (the pyshacl/rdflib SHACL engine and the
language-model text transducer) are modelled as oracle functions
passed in as parameters; everything the repository itself computes
is translated directly from the source.
-/

namespace ODRL

/-! ### Python string helpers

Small executable models of the Python string operations used by the
source: substring containment (`in`), `str.strip`, and the two
`re.sub` calls of `_clean_turtle` (literal pattern followed by a run
of whitespace). -/

/-- Python whitespace class `\s` over ASCII: space, tab, newline,
carriage return, form feed, vertical tab. -/
def isSpaceChar (c : Char) : Bool :=
  c = ' ' || c = '\t' || c = '\n' || c = '\x0d' || c = '\x0c' || c = '\x0b'

/-- Python `str.strip()`: drop leading and trailing whitespace. -/
def pyStrip (s : String) : String :=
  let l := (s.data.dropWhile isSpaceChar).reverse.dropWhile isSpaceChar
  String.mk l.reverse

/-- Python `needle in hay` substring containment. -/
def strContains (hay needle : String) : Bool :=
  (List.range (hay.data.length + 1)).any
    (fun i => needle.data.isPrefixOf (hay.data.drop i))

/-- One pass of `re.sub(pat ++ "\\s*", "", s)` on character lists, with
explicit fuel (the fuel is always at least the list length, and every
step consumes at least one character, so the fuel branch is dead). -/
def subPatternGo (pat : List Char) : Nat → List Char → List Char
  | _, [] => []
  | 0, s => s
  | fuel + 1, c :: cs =>
    if pat.isPrefixOf (c :: cs) then
      subPatternGo pat fuel (((c :: cs).drop pat.length).dropWhile isSpaceChar)
    else
      c :: subPatternGo pat fuel cs

/-- Python `re.sub(pat ++ "\\s*", "", s)` for a non-empty literal
pattern `pat`: remove every occurrence of the literal followed by a
(possibly empty) run of whitespace. -/
def pySubWs (pat : String) (s : String) : String :=
  String.mk (subPatternGo pat.data s.data.length s.data)

/-- Python `str.startswith`. -/
def strStartsWith (s pre : String) : Bool :=
  pre.data.isPrefixOf s.data

/-- Splitting worker for `pySplit`, with fuel (always at least the
remaining length; every recursive step consumes a character). -/
def pySplitGo (sep : List Char) : Nat → List Char → List Char → List String
  | _, acc, [] => [String.mk acc.reverse]
  | 0, acc, rest => [String.mk (acc.reverse ++ rest)]
  | fuel + 1, acc, c :: cs =>
    if sep.isPrefixOf (c :: cs) then
      String.mk acc.reverse :: pySplitGo sep fuel [] ((c :: cs).drop sep.length)
    else
      pySplitGo sep fuel (c :: acc) cs

/-- Python `s.split(sep)` for a non-empty separator: split on each
non-overlapping occurrence, left to right. -/
def pySplit (sep s : String) : List String :=
  pySplitGo sep.data s.data.length [] s.data

/-- Python `sep.join(parts)`. -/
def strJoin (sep : String) : List String → String
  | [] => ""
  | [x] => x
  | x :: y :: xs => x ++ sep ++ strJoin sep (y :: xs)

/-! ### ValidationIssue and ValidationReport
From `odrl_validation_tool.py`, sections 1 and 2. -/

/-- Single SHACL violation detected (`ValidationIssue` dataclass). -/
structure ValidationIssue where
  issue_type : String
  focus_node : String
  property_path : String
  actual_value : String
  constraint_violated : String
  severity : String := "Violation"
deriving DecidableEq, Repr, Inhabited

/-- Complete validation report for LLM feedback (`ValidationReport`
dataclass). -/
structure ValidationReport where
  user_text : String
  generated_kg : String
  is_valid : Bool
  issues : List ValidationIssue
deriving DecidableEq, Repr, Inhabited

/-- `ValidationReport._group_issues_by_type`: group issues by
`issue_type`, keys in first-encounter order, each group in encounter
order (Python dict insertion order). -/
def groupIssuesByType (issues : List ValidationIssue) : List (String × List ValidationIssue) :=
  issues.foldl
    (fun groups issue =>
      if groups.any (fun g => g.1 == issue.issue_type) then
        groups.map (fun g =>
          if g.1 == issue.issue_type then (g.1, g.2 ++ [issue]) else g)
      else
        groups ++ [(issue.issue_type, [issue])])
    []

/-- Lines describing one issue group in `to_learning_prompt`. -/
def issueGroupLines (group : String × List ValidationIssue) : List String :=
  ("### " ++ group.1) ::
  (List.enumFrom 1 group.2).foldr
    (fun p acc =>
      (toString p.1 ++ ". **Node**: `" ++ p.2.focus_node ++ "`") ::
      ("   **Property**: `" ++ p.2.property_path ++ "`") ::
      ("   **Current Value**: `" ++ p.2.actual_value ++ "`") ::
      ("   **Constraint Violated**: " ++ p.2.constraint_violated) ::
      (if p.2.severity != "Violation" then
        [("   **Severity**: " ++ p.2.severity), ""]
      else [""]) ++ acc)
    []

/-- `ValidationReport.to_learning_prompt`: the structured prompt shown
to the regeneration transducer. -/
def ValidationReport.to_learning_prompt (r : ValidationReport) : String :=
  let header : List String :=
    ["# ODRL Knowledge Graph Validation Report", "",
     "## Original User Request",
     "\"" ++ r.user_text ++ "\"", "",
     "## Generated Knowledge Graph",
     "```turtle", pyStrip r.generated_kg, "```", "",
     "## Validation Results"]
  let body : List String :=
    if r.is_valid then
      ["**Status**: VALID ", "",
       "The generated knowledge graph conforms to all ODRL validation rules."]
    else
      ["**Status**: INVALID  - " ++ toString r.issues.length ++ " issue(s) detected", ""] ++
      ((groupIssuesByType r.issues).foldr (fun g acc => issueGroupLines g ++ acc) []) ++
      ["## Learning Notes",
       "The above issues indicate where the knowledge graph doesn\x27t conform to ODRL standards.",
       "Review the constraint violations to understand what corrections are needed."]
  strJoin "\n" (header ++ body)

/-! ### ODRL vocabulary (section 3 of `odrl_validation_tool.py`) -/

/-- ODRL core constraint operators (`OperatorType` enum). -/
inductive OperatorType where
  | EQ | GT | GTEQ | LT | LTEQ | NEQ
  | IS_A | HAS_PART | IS_PART_OF | IS_ALL_OF | IS_ANY_OF | IS_NONE_OF
deriving DecidableEq, Repr, Inhabited

/-- The enum's `.value` strings. -/
def OperatorType.value : OperatorType → String
  | .EQ => "eq"
  | .GT => "gt"
  | .GTEQ => "gteq"
  | .LT => "lt"
  | .LTEQ => "lteq"
  | .NEQ => "neq"
  | .IS_A => "isA"
  | .HAS_PART => "hasPart"
  | .IS_PART_OF => "isPartOf"
  | .IS_ALL_OF => "isAllOf"
  | .IS_ANY_OF => "isAnyOf"
  | .IS_NONE_OF => "isNoneOf"

/-- Members of `OperatorType` in declaration order (Python enum
iteration order). -/
def OperatorType.members : List OperatorType :=
  [.EQ, .GT, .GTEQ, .LT, .LTEQ, .NEQ,
   .IS_A, .HAS_PART, .IS_PART_OF, .IS_ALL_OF, .IS_ANY_OF, .IS_NONE_OF]

/-- Information about ODRL left operands (`LeftOperandInfo`
dataclass); the operator set is kept in its source-written order. -/
structure LeftOperandInfo where
  uri : String
  label : String
  definition : String
  compatible_operators : List OperatorType
  expected_datatype : Option String := none
deriving DecidableEq, Repr, Inhabited

/-- `ODRLLeftOperands.OPERANDS`: registry of ODRL left operands, in
declaration order. -/
def ODRLLeftOperands.OPERANDS : List (String × LeftOperandInfo) :=
  [("dateTime",
    { uri := "http://www.w3.org/ns/odrl/2/dateTime",
      label := "Datetime",
      definition := "The date (and optional time) of exercising the action",
      compatible_operators := [.LT, .LTEQ, .GT, .GTEQ, .EQ],
      expected_datatype := some "xsd:date" }),
   ("count",
    { uri := "http://www.w3.org/ns/odrl/2/count",
      label := "Count",
      definition := "Numeric count of executions",
      compatible_operators := [.LT, .LTEQ, .GT, .GTEQ, .EQ],
      expected_datatype := some "xsd:integer" }),
   ("elapsedTime",
    { uri := "http://www.w3.org/ns/odrl/2/elapsedTime",
      label := "Elapsed Time",
      definition := "A continuous elapsed time period",
      compatible_operators := [.EQ, .LT, .LTEQ],
      expected_datatype := some "xsd:duration" }),
   ("payAmount",
    { uri := "http://www.w3.org/ns/odrl/2/payAmount",
      label := "Payment Amount",
      definition := "The amount of a financial payment",
      compatible_operators := [.EQ, .LT, .LTEQ, .GT, .GTEQ],
      expected_datatype := some "xsd:decimal" }),
   ("percentage",
    { uri := "http://www.w3.org/ns/odrl/2/percentage",
      label := "Asset Percentage",
      definition := "A percentage amount of the target Asset",
      compatible_operators := [.EQ, .LT, .LTEQ, .GT, .GTEQ],
      expected_datatype := some "xsd:decimal" }),
   ("spatial",
    { uri := "http://www.w3.org/ns/odrl/2/spatial",
      label := "Geospatial Named Area",
      definition := "A named geospatial area",
      compatible_operators := [.EQ, .IS_A, .IS_ANY_OF, .IS_NONE_OF] }),
   ("purpose",
    { uri := "http://www.w3.org/ns/odrl/2/purpose",
      label := "Purpose",
      definition := "A defined purpose for exercising the action",
      compatible_operators := [.EQ, .IS_A, .IS_ANY_OF, .IS_NONE_OF] }),
   ("recipient",
    { uri := "http://www.w3.org/ns/odrl/2/recipient",
      label := "Recipient",
      definition := "The party receiving the result",
      compatible_operators := [.EQ, .IS_A, .IS_ANY_OF, .IS_NONE_OF] })]

/-- `ODRLLeftOperands.get_operand`. -/
def ODRLLeftOperands.get_operand (name : String) : Option LeftOperandInfo :=
  (ODRLLeftOperands.OPERANDS.find? (fun p => p.1 == name)).map (·.2)

/-- `ODRLLeftOperands.list_operands`. -/
def ODRLLeftOperands.list_operands : List String :=
  ODRLLeftOperands.OPERANDS.map (·.1)

/-! ### SHACL violations and the external SHACL engine

`_run_shacl_validation` parses the data and shape graphs with rdflib,
runs pyshacl, and extracts each `sh:ValidationResult` into a dict
whose keys are present only when the corresponding predicate occurs
in the report.  rdflib/pyshacl are external collaborators: they are
modelled as an oracle from (data turtle, shape turtle) to either a
violation list or a raised error message. -/

/-- One extracted `sh:ValidationResult` dict; a `none` field models an
absent key. -/
structure ShaclViolation where
  focus_node : Option String := none
  value : Option String := none
  source_constraint_component : Option String := none
  result_path : Option String := none
  message : Option String := none
deriving DecidableEq, Repr, Inhabited

/-- Oracle for the rdflib-parse + pyshacl-validate + report-extraction
block inside the `try` of `_run_shacl_validation`; `Except.error`
models any exception raised there. -/
abbrev ShaclEngine := String → String → Except String (List ShaclViolation)

/-- `ODRLValidationTool._run_shacl_validation`: on an exception the
error is caught and turned into a single violation dict whose message
is `"Validation error: ..."` and whose other fields are empty
strings. -/
def run_shacl_validation (engine : ShaclEngine) (data_ttl shape_ttl : String) :
    List ShaclViolation :=
  match engine data_ttl shape_ttl with
  | .ok violations => violations
  | .error e =>
      [{ message := some ("Validation error: " ++ e),
         focus_node := some "",
         value := some "",
         source_constraint_component := some "",
         result_path := some "" }]

/-! ### Concrete validators (section 5 of `odrl_validation_tool.py`) -/

/-- A `BaseValidator`: its SHACL shape text and its conversion of
extracted SHACL violations to `ValidationIssue`s. -/
structure BaseValidator where
  get_shape_ttl : String
  process_violations : List ShaclViolation → List ValidationIssue

/-- `PolicyStructureValidator.get_shape_ttl`. -/
def policyStructureShapeTtl : String :=
  "\n@prefix sh: <http://www.w3.org/ns/shacl#> .\n@prefix odrl: <http://www.w3.org/ns/odrl/2/> .\n\n<PolicyStructureShape> a sh:NodeShape ;\n    sh:targetClass odrl:Policy ;\n    sh:property [\n        sh:path odrl:uid ;\n        sh:minCount 1 ;\n        sh:maxCount 1 ;\n        sh:nodeKind sh:IRI ;\n        sh:message \"Policy must have exactly one uid with IRI value\" ;\n    ] ;\n    sh:or (\n        [ sh:property [ sh:path odrl:permission ; sh:minCount 1 ] ]\n        [ sh:property [ sh:path odrl:prohibition ; sh:minCount 1 ] ]\n        [ sh:property [ sh:path odrl:obligation ; sh:minCount 1 ] ]\n    ) ;\n    sh:message \"Policy must have at least one rule\" .\n"

/-- `PolicyStructureValidator.process_violations`. -/
def policyStructureProcess (violations : List ShaclViolation) : List ValidationIssue :=
  violations.map (fun v =>
    let constraint_type := v.source_constraint_component.getD ""
    let result_path := v.result_path.getD ""
    let classified : String × String :=
      if strContains result_path "uid" then
        ("Missing Policy UID",
         "ODRL Policy must have exactly one odrl:uid property with an IRI value")
      else if strContains constraint_type "OrConstraintComponent" then
        ("Missing Policy Rules",
         "ODRL Policy must contain at least one Rule (permission/prohibition/obligation)")
      else
        ("Policy Structure Error",
         v.message.getD "Unknown policy structure violation")
    { issue_type := classified.1,
      focus_node := v.focus_node.getD "",
      property_path := result_path,
      actual_value := v.value.getD "not specified",
      constraint_violated := classified.2 })

/-- `PolicyStructureValidator` instance. -/
def PolicyStructureValidator : BaseValidator :=
  { get_shape_ttl := policyStructureShapeTtl,
    process_violations := policyStructureProcess }

/-- `ConstraintStructureValidator._extract_from_uri`. -/
def constraintExtractFromUri (uri_value : String) : String :=
  if strContains uri_value "odrl/2/" then
    (pySplit "odrl/2/" uri_value).getLastD ""
  else if strContains uri_value ":" then
    (pySplit ":" uri_value).getLastD ""
  else uri_value

/-- `ConstraintStructureValidator.get_shape_ttl` (built from the
operand registry and the operator enum, as in the source). -/
def constraintStructureShapeTtl : String :=
  let left_operands :=
    strJoin " " (ODRLLeftOperands.list_operands.map (fun op => "odrl:" ++ op))
  let operators :=
    strJoin " " (OperatorType.members.map (fun op => "odrl:" ++ op.value))
  "\n@prefix sh: <http://www.w3.org/ns/shacl#> .\n@prefix odrl: <http://www.w3.org/ns/odrl/2/> .\n\n<ConstraintStructureShape> a sh:NodeShape ;\n    sh:targetClass odrl:Constraint ;\n    \n    sh:property [\n        sh:path odrl:leftOperand ;\n        sh:minCount 1 ;\n        sh:maxCount 1 ;\n        sh:in ( "
  ++ left_operands ++
  " ) ;\n        sh:message \"Invalid or missing left operand\" ;\n    ] ;\n    \n    sh:property [\n        sh:path odrl:operator ;\n        sh:minCount 1 ;\n        sh:maxCount 1 ;\n        sh:in ( "
  ++ operators ++
  " ) ;\n        sh:message \"Invalid or missing operator\" ;\n    ] ;\n    \n    sh:xone (\n        [ sh:property [ sh:path odrl:rightOperand ; sh:minCount 1 ] ]\n        [ sh:property [ sh:path odrl:rightOperandReference ; sh:minCount 1 ] ]\n    ) ;\n    sh:message \"Missing right operand or reference\" .\n"

/-- `ConstraintStructureValidator.process_violations`. -/
def constraintStructureProcess (violations : List ShaclViolation) : List ValidationIssue :=
  violations.map (fun v =>
    let constraint_type := v.source_constraint_component.getD ""
    let result_path := v.result_path.getD ""
    let classified : String × String :=
      if strContains result_path "leftOperand" then
        let actual_operand := constraintExtractFromUri (v.value.getD "")
        ("Invalid Left Operand",
         "Left operand \x27" ++ actual_operand ++ "\x27 is not in ODRL Core. Valid: " ++
           strJoin ", " ODRLLeftOperands.list_operands)
      else if strContains result_path "operator" then
        let actual_op := constraintExtractFromUri (v.value.getD "")
        let valid_ops := strJoin ", " (OperatorType.members.map (·.value))
        ("Invalid Operator",
         "Operator \x27" ++ actual_op ++ "\x27 is not in ODRL Core. Valid: " ++ valid_ops)
      else if strContains constraint_type "XoneConstraintComponent" then
        ("Missing Right Operand",
         "Must have either rightOperand or rightOperandReference")
      else
        ("Constraint Structure Error",
         v.message.getD "Unknown constraint violation")
    { issue_type := classified.1,
      focus_node := v.focus_node.getD "",
      property_path := result_path,
      actual_value := v.value.getD "not specified",
      constraint_violated := classified.2 })

/-- `ConstraintStructureValidator` instance. -/
def ConstraintStructureValidator : BaseValidator :=
  { get_shape_ttl := constraintStructureShapeTtl,
    process_violations := constraintStructureProcess }

/-- `ConstraintCompatibilityValidator._extract_from_uri` (this class's
variant also splits on `#` and `/`). -/
def compatExtractFromUri (uri_value : String) : String :=
  if strContains uri_value "odrl/2/" then
    (pySplit "odrl/2/" uri_value).getLastD ""
  else if strContains uri_value "#" then
    (pySplit "#" uri_value).getLastD ""
  else if strContains uri_value "/" then
    (pySplit "/" uri_value).getLastD ""
  else uri_value

/-- One SPARQL compatibility rule of
`ConstraintCompatibilityValidator.get_shape_ttl`. -/
def compatibilityRule (operand_name compatible_ops : String) : String :=
  "\n<CompatibilityRule_" ++ operand_name ++
  "> a sh:NodeShape ;\n    sh:targetClass odrl:Constraint ;\n    sh:sparql [\n        sh:select \x27\x27\x27\n            PREFIX odrl: <http://www.w3.org/ns/odrl/2/>\n            SELECT $this ?operator\n            WHERE \x7b\n                $this odrl:leftOperand odrl:" ++ operand_name ++
  " .\n                $this odrl:operator ?operator .\n                FILTER (?operator NOT IN (" ++ compatible_ops ++
  "))\n            \x7d\n        \x27\x27\x27 ;\n        sh:message \"Incompatible operator for " ++ operand_name ++
  "\" ;\n        sh:severity sh:Warning ;\n    ] .\n"

/-- `ConstraintCompatibilityValidator.get_shape_ttl`. -/
def constraintCompatibilityShapeTtl : String :=
  let rules := ODRLLeftOperands.OPERANDS.map (fun p =>
    compatibilityRule p.1
      (strJoin " " (p.2.compatible_operators.map (fun op => "odrl:" ++ op.value))))
  "\n@prefix sh: <http://www.w3.org/ns/shacl#> .\n@prefix odrl: <http://www.w3.org/ns/odrl/2/> .\n\n" ++
  strJoin "\n" rules ++ "\n"

/-- `ConstraintCompatibilityValidator.process_violations`: every issue
it produces carries `issue_type` "Operator Compatibility" and severity
"Warning". -/
def constraintCompatibilityProcess (violations : List ShaclViolation) : List ValidationIssue :=
  violations.map (fun v =>
    let focus_node := v.focus_node.getD ""
    let operator_value := v.value.getD ""
    let message := v.message.getD ""
    let stripped := pyStrip ((pySplit "for " message).getLastD "")
    let constraint_violated :=
      if strContains message "for " && stripped != "" then
        match ODRLLeftOperands.get_operand stripped with
        | some operand_info =>
            let valid_ops :=
              strJoin ", " (operand_info.compatible_operators.map (·.value))
            "Operator \x27" ++ compatExtractFromUri operator_value ++
              "\x27 not compatible with leftOperand \x27" ++ stripped ++
              "\x27. Valid: " ++ valid_ops
        | none => "Unknown operand \x27" ++ stripped ++ "\x27"
      else "Operator-operand compatibility issue"
    { issue_type := "Operator Compatibility",
      focus_node := focus_node,
      property_path := "odrl:operator",
      actual_value := operator_value,
      constraint_violated := constraint_violated,
      severity := "Warning" })

/-- `ConstraintCompatibilityValidator` instance (defined in the source
but NOT registered in `ODRLValidationTool.__init__`, where its entry
in the validator list is commented out). -/
def ConstraintCompatibilityValidator : BaseValidator :=
  { get_shape_ttl := constraintCompatibilityShapeTtl,
    process_violations := constraintCompatibilityProcess }

/-! ### Main validation tool (section 6 of `odrl_validation_tool.py`) -/

/-- `ODRLValidationTool.__init__`: the registered validators.  The
source lists `PolicyStructureValidator()` and
`ConstraintStructureValidator()`; the line
`ConstraintCompatibilityValidator(),` is commented out. -/
def registeredValidators : List BaseValidator :=
  [PolicyStructureValidator,
   ConstraintStructureValidator]

/-- `ODRLValidationTool.validate_kg`: run each registered validator
over the document, concatenate the issues, and compute `is_valid` as
`len(all_issues) == 0`. -/
def validate_kg (engine : ShaclEngine) (user_text kg_turtle : String) : ValidationReport :=
  let all_issues := registeredValidators.foldl
    (fun acc v => acc ++ v.process_violations (run_shacl_validation engine kg_turtle v.get_shape_ttl))
    []
  { user_text := user_text,
    generated_kg := kg_turtle,
    is_valid := all_issues.length == 0,
    issues := all_issues }

/-! ### ValidatorAgent (`validator_agent.py`)

The language model is an external collaborator; it is modelled as an
oracle from the prompt text to the response content.  The current
date (`datetime.now`) is likewise an input. -/

/-- Oracle for `self.llm.invoke([HumanMessage(content=prompt)])`. -/
abbrev Transducer := String → String

/-- `ODRL_REGENERATION_PROMPT.format(current_date=...,
validation_learning_prompt=...)`: the module-level template with its
two placeholders filled in. -/
def ODRL_REGENERATION_PROMPT (current_date validation_learning_prompt : String) : String :=
  strJoin "\n"
    ["",
     "# ODRL SHACL VIOLATION FIXER",
     "",
     "You are an expert at fixing W3C ODRL 2.2 compliance issues in Turtle format.",
     "",
     "**Current Date:** " ++ current_date,
     "",
     "---",
     "",
     validation_learning_prompt,
     "",
     "---",
     "",
     "## FIXING GUIDELINES",
     "",
     "### 1. PRESERVE POLICY MEANING",
     "- Do NOT change who can do what",
     "- Do NOT change which resources",
     "- Do NOT change time periods, counts, or purposes",
     "- Do NOT remove constraints",
     "- ONLY fix technical SHACL compliance issues",
     "",
     "### 2. COMMON FIXES",
     "",
     "**Missing odrl:uid:**",
     "```turtle",
     "# WRONG",
     "ex:policy_123 a odrl:Policy ;",
     "    odrl:permission [ ... ] .",
     "",
     "# CORRECT",
     "ex:policy_123 a odrl:Policy ;",
     "    odrl:uid ex:policy_123 ;  # ← ADD THIS (must match policy URI)",
     "    odrl:permission [ ... ] .",
     "```",
     "",
     "**Invalid Operator:**",
     "```turtle",
     "# WRONG",
     "odrl:operator \"lte\" .          # Missing odrl: prefix",
     "odrl:operator invalidOp .      # Not in ODRL vocabulary",
     "",
     "# CORRECT",
     "odrl:operator odrl:lteq .      # Use odrl: prefix and valid operator",
     "```",
     "",
     "**Valid ODRL Operators:**",
     "- `odrl:eq` (equals)",
     "- `odrl:neq` (not equals)",
     "- `odrl:lt` (less than)",
     "- `odrl:lteq` (less than or equal)",
     "- `odrl:gt` (greater than)",
     "- `odrl:gteq` (greater than or equal)",
     "- `odrl:isA` (instance of)",
     "- `odrl:isAnyOf` (any of set)",
     "- `odrl:isNoneOf` (none of set)",
     "",
     "**Invalid leftOperand:**",
     "```turtle",
     "# WRONG",
     "odrl:leftOperand \"dateTime\" .  # Missing odrl: prefix",
     "odrl:leftOperand count .       # Missing odrl: prefix",
     "",
     "# CORRECT",
     "odrl:leftOperand odrl:dateTime .",
     "odrl:leftOperand odrl:count .",
     "```",
     "",
     "**Valid ODRL leftOperands:**",
     "- `odrl:dateTime` (temporal constraints)",
     "- `odrl:count` (usage count)",
     "- `odrl:purpose` (purpose restrictions)",
     "- `odrl:spatial` (geographic restrictions)",
     "- `odrl:recipient` (recipient restrictions)",
     "- `odrl:elapsedTime` (duration constraints)",
     "- `odrl:payAmount` (payment amounts)",
     "- `odrl:percentage` (percentage amounts)",
     "",
     "**Missing Constraint Type:**",
     "```turtle",
     "# WRONG",
     "odrl:constraint [",
     "    odrl:leftOperand odrl:dateTime ;  # Missing type declaration",
     "    odrl:operator odrl:lteq ;",
     "    odrl:rightOperand \"2025-12-31\"^^xsd:date ;",
     "] .",
     "",
     "# CORRECT",
     "odrl:constraint [",
     "    a odrl:Constraint ;  # ← ADD THIS",
     "    odrl:leftOperand odrl:dateTime ;",
     "    odrl:operator odrl:lteq ;",
     "    odrl:rightOperand \"2025-12-31\"^^xsd:date ;",
     "] .",
     "```",
     "",
     "**Missing Permission/Prohibition Type:**",
     "```turtle",
     "# WRONG",
     "odrl:permission [",
     "    odrl:action odrl:read ;  # Missing type declaration",
     "    odrl:target ex:dataset ;",
     "] .",
     "",
     "# CORRECT",
     "odrl:permission [",
     "    a odrl:Permission ;  # ← ADD THIS",
     "    odrl:action odrl:read ;",
     "    odrl:target ex:dataset ;",
     "] .",
     "```",
     "",
     "**Wrong Datatype:**",
     "```turtle",
     "# WRONG",
     "odrl:rightOperand \"2025-12-31\" .      # Missing ^^xsd:date",
     "odrl:rightOperand \"30\" .              # Missing ^^xsd:integer",
     "",
     "# CORRECT",
     "odrl:rightOperand \"2025-12-31\"^^xsd:date .",
     "odrl:rightOperand \"30\"^^xsd:integer .",
     "```",
     "",
     "---",
     "",
     "## OUTPUT REQUIREMENTS",
     "",
     "1. **Return ONLY the corrected Turtle**",
     "2. **NO markdown code blocks** (no ```)",
     "3. **NO explanatory text**",
     "4. **Start with @prefix declarations**",
     "5. **Preserve all metadata** (dct:title, dct:description, rdfs:comment)",
     "6. **Fix ONLY the specific SHACL violations listed above**",
     "7. **Do NOT change the policy meaning**",
     "",
     "---",
     "",
     "Return the corrected ODRL Turtle now:",
     ""]

/-- `ValidatorAgent._clean_turtle`: strip markdown code fences,
drop any text before the first line whose stripped form starts with
`@prefix`, and strip surrounding whitespace. -/
def clean_turtle (content : String) : String :=
  let content := pySubWs "```turtle" content
  let content := pySubWs "```" content
  let lines := pySplit "\n" content
  let start_idx := (lines.findIdx? (fun l => strStartsWith (pyStrip l) "@prefix")).getD 0
  pyStrip (strJoin "\n" (lines.drop start_idx))

/-- Result dict of `ValidatorAgent.regenerate`.  The Python dict
carries an `original_issues` key only on the regeneration branch;
that optional key is an `Option` here. -/
structure RegenResult where
  odrl_turtle : String
  regenerated : Bool
  original_issues : Option (List ValidationIssue) := none
deriving DecidableEq, Repr

/-- `ValidatorAgent.regenerate`: if the report is already valid,
return the generated document unchanged without calling the language
model; otherwise build the regeneration prompt, make a single LLM
call, and clean the response.  The second component counts
`llm.invoke` calls. -/
def regenerate (llm : Transducer) (current_date : String)
    (validation_report : ValidationReport) : RegenResult × Nat :=
  if validation_report.is_valid then
    ({ odrl_turtle := validation_report.generated_kg, regenerated := false }, 0)
  else
    let prompt :=
      ODRL_REGENERATION_PROMPT current_date validation_report.to_learning_prompt
    let corrected_turtle := clean_turtle (llm prompt)
    ({ odrl_turtle := corrected_turtle,
       regenerated := true,
       original_issues := some validation_report.issues }, 1)

/-- One entry of the loop's `all_attempts` list. -/
structure AttemptInfo where
  attempt : Nat
  is_valid : Bool
  issues : List ValidationIssue
  odrl_turtle : String
deriving DecidableEq, Repr

/-- Result dict of `ValidatorAgent.validate_and_regenerate`.  The
Python success dict has no `final_issues` key; it is `[]` here.
`regen_calls` counts the LLM transducer invocations made during the
loop. -/
structure VRResult where
  success : Bool
  final_odrl : String
  attempts : Nat
  all_attempts : List AttemptInfo
  final_issues : List ValidationIssue := []
  regen_calls : Nat
deriving DecidableEq, Repr

/-- The body of the `while attempt <= max_attempts` loop of
`validate_and_regenerate`, with `remaining = max_attempts - attempt + 1`
as structural fuel.  `none` is only reachable with `remaining = 0`,
i.e. when the loop body never ran (`max_attempts = 0`), where the
Python code would read the unbound local `attempt_info` and raise. -/
def vrGo (engine : ShaclEngine) (llm : Transducer)
    (current_date policy_text : String) (max_attempts : Nat) :
    Nat → Nat → String → List AttemptInfo → Nat → Option VRResult
  | 0, _, _, _, _ => none
  | remaining + 1, attempt, odrl_turtle, all_attempts, regens =>
    let validation_report := validate_kg engine policy_text odrl_turtle
    let attempt_info : AttemptInfo :=
      { attempt := attempt,
        is_valid := validation_report.is_valid,
        issues := validation_report.issues,
        odrl_turtle := odrl_turtle }
    if validation_report.is_valid then
      some { success := true,
             final_odrl := odrl_turtle,
             attempts := attempt,
             all_attempts := all_attempts ++ [attempt_info],
             regen_calls := regens }
    else if attempt = max_attempts then
      some { success := false,
             final_odrl := odrl_turtle,
             attempts := max_attempts,
             all_attempts := all_attempts ++ [attempt_info],
             final_issues := attempt_info.issues,
             regen_calls := regens }
    else
      let regen_result := regenerate llm current_date validation_report
      vrGo engine llm current_date policy_text max_attempts
        remaining (attempt + 1) regen_result.1.odrl_turtle
        (all_attempts ++ [attempt_info]) (regens + regen_result.2)

/-- `ValidatorAgent.validate_and_regenerate`: validate and regenerate
until valid or the attempt ceiling is reached (source default 3). -/
def validate_and_regenerate (engine : ShaclEngine) (llm : Transducer)
    (current_date policy_text odrl_turtle : String) (max_attempts : Nat) :
    Option VRResult :=
  vrGo engine llm current_date policy_text max_attempts
    max_attempts 1 odrl_turtle [] 0

/-- The sequence of candidate documents the loop works through:
`docAt 0` is the caller's document and `docAt (n+1)` is the
transducer's repair of `docAt n` (attempt `i` validates
`docAt (i-1)`). -/
def docAt (engine : ShaclEngine) (llm : Transducer)
    (current_date policy_text odrl_turtle : String) : Nat → String
  | 0 => odrl_turtle
  | n + 1 =>
    (regenerate llm current_date
      (validate_kg engine policy_text
        (docAt engine llm current_date policy_text odrl_turtle n))).1.odrl_turtle

/-! ### Conflict taxonomy (`agents/reasoner/conflict_types.py`) -/

/-- The 14 leaf conflict categories (`ConflictType` enum). -/
inductive ConflictType where
  | VAGUE_BROAD
  | UNMEASURABLE
  | SPATIAL_HIERARCHY
  | SPATIAL_OVERLAP
  | TEMPORAL_EXPIRED
  | TEMPORAL_OVERLAP
  | TEMPORAL_IMPOSSIBLE
  | ACTION_HIERARCHY
  | ACTION_SUBSUMPTION
  | ACTION_CONFLICT
  | CIRCULAR_DEPENDENCY
  | WORKFLOW_CYCLE
  | ROLE_HIERARCHY
  | PARTY_INCONSISTENCY
deriving DecidableEq, Repr, Inhabited

/-- The enum's string values. -/
def ConflictType.value : ConflictType → String
  | .VAGUE_BROAD => "vague_and_overly_broad"
  | .UNMEASURABLE => "unmeasurable_terms"
  | .SPATIAL_HIERARCHY => "spatial_hierarchy_conflict"
  | .SPATIAL_OVERLAP => "spatial_overlap_conflict"
  | .TEMPORAL_EXPIRED => "temporal_expired_policy"
  | .TEMPORAL_OVERLAP => "temporal_overlap_conflict"
  | .TEMPORAL_IMPOSSIBLE => "temporal_impossible_sequence"
  | .ACTION_HIERARCHY => "action_hierarchy_conflict"
  | .ACTION_SUBSUMPTION => "action_subsumption_conflict"
  | .ACTION_CONFLICT => "action_conflict"
  | .CIRCULAR_DEPENDENCY => "circular_approval_dependency"
  | .WORKFLOW_CYCLE => "workflow_cycle_conflict"
  | .ROLE_HIERARCHY => "role_hierarchy_conflict"
  | .PARTY_INCONSISTENCY => "party_specification_inconsistency"

/-- All 14 enum members, in declaration order. -/
def ConflictType.members : List ConflictType :=
  [.VAGUE_BROAD, .UNMEASURABLE,
   .SPATIAL_HIERARCHY, .SPATIAL_OVERLAP,
   .TEMPORAL_EXPIRED, .TEMPORAL_OVERLAP, .TEMPORAL_IMPOSSIBLE,
   .ACTION_HIERARCHY, .ACTION_SUBSUMPTION, .ACTION_CONFLICT,
   .CIRCULAR_DEPENDENCY, .WORKFLOW_CYCLE,
   .ROLE_HIERARCHY, .PARTY_INCONSISTENCY]

/-- A value in a structural detection pattern dict: the source mixes
strings and the boolean `True`. -/
inductive PatternValue where
  | str (value : String)
  | flag (value : Bool)
deriving DecidableEq, Repr

/-- `ConflictDetectionStrategy` (pydantic model): how to detect one
conflict type.  A structural pattern dict is a key/value list. -/
structure ConflictDetectionStrategy where
  conflict_type : ConflictType
  detection_order : Nat
  requires_ontology : Bool := false
  requires_graph_analysis : Bool := false
  keyword_patterns : List String := []
  structural_patterns : List (List (String × PatternValue)) := []
  resolution_principle : String
  default_action : String
deriving DecidableEq, Repr, Inhabited

/-- `CONFLICT_STRATEGIES`: detection strategies ordered by priority,
exactly the eight entries of the source list. -/
def CONFLICT_STRATEGIES : List ConflictDetectionStrategy :=
  [{ conflict_type := .UNMEASURABLE,
     detection_order := 1,
     keyword_patterns :=
       ["urgent", "soon", "later", "promptly", "quickly",
        "responsibly", "appropriately", "properly",
        "when necessary", "if important", "as needed",
        "everyone", "anyone", "nobody"],
     resolution_principle := "reject_with_measurable_alternative",
     default_action := "reject" },
   { conflict_type := .VAGUE_BROAD,
     detection_order := 2,
     keyword_patterns :=
       ["everything", "anything", "all data", "any purpose",
        "everyone can access everything",
        "nobody can do anything"],
     structural_patterns :=
       [[("actors", .str "universal_quantifier"), ("assets", .str "universal_quantifier")],
        [("actors", .str "unspecified"), ("actions", .str "unspecified")]],
     resolution_principle := "require_specification",
     default_action := "reject" },
   { conflict_type := .TEMPORAL_EXPIRED,
     detection_order := 3,
     structural_patterns :=
       [[("constraint_type", .str "temporal"), ("end_date", .str "before_current_date")]],
     resolution_principle := "flag_as_inactive",
     default_action := "reject" },
   { conflict_type := .TEMPORAL_OVERLAP,
     detection_order := 4,
     structural_patterns :=
       [[("overlapping_intervals", .flag true), ("contradictory_actions", .flag true)]],
     resolution_principle := "specific_over_general",
     default_action := "reject" },
   { conflict_type := .SPATIAL_HIERARCHY,
     detection_order := 5,
     requires_ontology := true,
     structural_patterns :=
       [[("narrow_scope", .str "permitted"), ("broad_scope", .str "prohibited"),
         ("containment", .flag true)]],
     resolution_principle := "specific_over_general",
     default_action := "reject" },
   { conflict_type := .ACTION_HIERARCHY,
     detection_order := 6,
     requires_ontology := true,
     structural_patterns :=
       [[("parent_action", .str "permitted"), ("child_action", .str "prohibited")],
        [("action_subsumption", .flag true)]],
     resolution_principle := "prohibit_on_conflict",
     default_action := "reject" },
   { conflict_type := .ROLE_HIERARCHY,
     detection_order := 7,
     requires_ontology := true,
     structural_patterns :=
       [[("broader_role", .str "required"), ("narrower_role", .str "prohibited"),
         ("role_containment", .flag true)]],
     resolution_principle := "apply_role_hierarchy",
     default_action := "reject" },
   { conflict_type := .CIRCULAR_DEPENDENCY,
     detection_order := 8,
     requires_graph_analysis := true,
     structural_patterns :=
       [[("dependency_chain", .str "contains_cycle")]],
     resolution_principle := "break_cycle_at_weakest_link",
     default_action := "reject" }]

/-- Modelled from the spec: a conflict signal is "an externally
supplied structured description (keyword hits and/or structural
predicate matches)"; the repository declares the strategy table but
contains no classifier function, so the signal shape follows §4.3 of
the spec. -/
structure ConflictSignal where
  keywords : List String
  structural : List (List (String × PatternValue))
deriving DecidableEq, Repr

/-- Modelled from the spec: a strategy's "trigger signals (keyword set
and/or structural predicate set)" are satisfied when some keyword
pattern is among the signal's keyword hits, or some structural
pattern is among the signal's matched structural predicates. -/
def matchesStrategy (signal : ConflictSignal) (s : ConflictDetectionStrategy) : Bool :=
  s.keyword_patterns.any (fun kw => signal.keywords.contains kw) ||
  s.structural_patterns.any (fun p => signal.structural.contains p)

/-- Modelled from the spec: `classify` "scans DetectionStrategy
entries in ascending priority order and returns the first whose
trigger signals are satisfied by the input"; `none` is the
`NoMatchingStrategy` condition.  `CONFLICT_STRATEGIES` is written in
ascending `detection_order`, so scanning the list in order is the
ascending-priority scan. -/
def classify (signal : ConflictSignal) : Option ConflictType :=
  (CONFLICT_STRATEGIES.find? (matchesStrategy signal)).map (·.conflict_type)

/-! ## Helper lemmas -/

theorem validate_kg_issues (engine : ShaclEngine) (u k : String) :
    (validate_kg engine u k).issues =
      policyStructureProcess (run_shacl_validation engine k policyStructureShapeTtl) ++
      constraintStructureProcess (run_shacl_validation engine k constraintStructureShapeTtl) := by
  simp [validate_kg, registeredValidators, PolicyStructureValidator, ConstraintStructureValidator]

theorem validate_kg_is_valid_eq (engine : ShaclEngine) (u k : String) :
    (validate_kg engine u k).is_valid = ((validate_kg engine u k).issues.length == 0) :=
  rfl

theorem validate_kg_is_valid_iff (engine : ShaclEngine) (u k : String) :
    (validate_kg engine u k).is_valid = true ↔ (validate_kg engine u k).issues = [] := by
  rw [validate_kg_is_valid_eq]
  simp [List.length_eq_zero]

theorem validate_kg_invalid_of_ne (engine : ShaclEngine) (u k : String)
    (h : (validate_kg engine u k).issues ≠ []) :
    (validate_kg engine u k).is_valid = false := by
  rcases hb : (validate_kg engine u k).is_valid with _ | _
  · rfl
  · exact absurd ((validate_kg_is_valid_iff engine u k).mp hb) h

theorem validate_kg_issues_ne_of_invalid (engine : ShaclEngine) (u k : String)
    (h : (validate_kg engine u k).is_valid = false) :
    (validate_kg engine u k).issues ≠ [] := by
  intro hnil
  have := (validate_kg_is_valid_iff engine u k).mpr hnil
  rw [h] at this
  exact Bool.false_ne_true this

theorem policyStructureProcess_severity (violations : List ShaclViolation) :
    ∀ i ∈ policyStructureProcess violations, i.severity = "Violation" := by
  intro i hi
  simp only [policyStructureProcess, List.mem_map] at hi
  obtain ⟨v, _, rfl⟩ := hi
  rfl

theorem constraintStructureProcess_severity (violations : List ShaclViolation) :
    ∀ i ∈ constraintStructureProcess violations, i.severity = "Violation" := by
  intro i hi
  simp only [constraintStructureProcess, List.mem_map] at hi
  obtain ⟨v, _, rfl⟩ := hi
  rfl

theorem validate_kg_severity (engine : ShaclEngine) (u k : String) :
    ∀ i ∈ (validate_kg engine u k).issues, i.severity = "Violation" := by
  intro i hi
  rw [validate_kg_issues] at hi
  rcases List.mem_append.mp hi with h | h
  · exact policyStructureProcess_severity _ i h
  · exact constraintStructureProcess_severity _ i h

theorem constraintCompatibilityProcess_severity (violations : List ShaclViolation) :
    ∀ i ∈ constraintCompatibilityProcess violations,
      i.severity = "Warning" ∧ i.issue_type = "Operator Compatibility" := by
  intro i hi
  simp only [constraintCompatibilityProcess, List.mem_map] at hi
  obtain ⟨v, _, rfl⟩ := hi
  exact ⟨rfl, rfl⟩

theorem regenerate_of_valid (llm : Transducer) (d : String) (r : ValidationReport)
    (h : r.is_valid = true) :
    regenerate llm d r = ({ odrl_turtle := r.generated_kg, regenerated := false }, 0) := by
  simp [regenerate, h]

theorem regenerate_of_invalid (llm : Transducer) (d : String) (r : ValidationReport)
    (h : r.is_valid = false) :
    regenerate llm d r =
      ({ odrl_turtle := clean_turtle (llm (ODRL_REGENERATION_PROMPT d r.to_learning_prompt)),
         regenerated := true,
         original_issues := some r.issues }, 1) := by
  simp [regenerate, h]

theorem regenerate_calls_of_invalid (llm : Transducer) (d : String) (r : ValidationReport)
    (h : r.is_valid = false) : (regenerate llm d r).2 = 1 := by
  rw [regenerate_of_invalid llm d r h]

/-! Unfolding lemmas for the three branches of one loop iteration. -/

theorem vrGo_step_valid (engine : ShaclEngine) (llm : Transducer) (d p : String)
    (M n attempt : Nat) (odrl : String) (acc : List AttemptInfo) (regens : Nat)
    (h : (validate_kg engine p odrl).is_valid = true) :
    vrGo engine llm d p M (n + 1) attempt odrl acc regens =
      some { success := true,
             final_odrl := odrl,
             attempts := attempt,
             all_attempts := acc ++
               [{ attempt := attempt, is_valid := true,
                  issues := (validate_kg engine p odrl).issues, odrl_turtle := odrl }],
             regen_calls := regens } := by
  simp [vrGo, h]

theorem vrGo_step_exhaust (engine : ShaclEngine) (llm : Transducer) (d p : String)
    (M n attempt : Nat) (odrl : String) (acc : List AttemptInfo) (regens : Nat)
    (h : (validate_kg engine p odrl).is_valid = false) (hM : attempt = M) :
    vrGo engine llm d p M (n + 1) attempt odrl acc regens =
      some { success := false,
             final_odrl := odrl,
             attempts := M,
             all_attempts := acc ++
               [{ attempt := attempt, is_valid := false,
                  issues := (validate_kg engine p odrl).issues, odrl_turtle := odrl }],
             final_issues := (validate_kg engine p odrl).issues,
             regen_calls := regens } := by
  simp [vrGo, h, hM]

theorem vrGo_step_continue (engine : ShaclEngine) (llm : Transducer) (d p : String)
    (M n attempt : Nat) (odrl : String) (acc : List AttemptInfo) (regens : Nat)
    (h : (validate_kg engine p odrl).is_valid = false) (hM : attempt ≠ M) :
    vrGo engine llm d p M (n + 1) attempt odrl acc regens =
      vrGo engine llm d p M n (attempt + 1)
        (regenerate llm d (validate_kg engine p odrl)).1.odrl_turtle
        (acc ++
          [{ attempt := attempt, is_valid := false,
             issues := (validate_kg engine p odrl).issues, odrl_turtle := odrl }])
        (regens + (regenerate llm d (validate_kg engine p odrl)).2) := by
  simp [vrGo, h, hM]

/-- Budget invariant of the loop: whenever the loop is entered with
`attempt + remaining = max_attempts + 1` and at least one attempt
left, it produces a result whose attempt count never exceeds the
ceiling, and a failing result uses exactly the ceiling with a
non-empty final violation list. -/
theorem vrGo_budget (engine : ShaclEngine) (llm : Transducer) (d p : String) (M : Nat) :
    ∀ (remaining attempt : Nat) (odrl : String) (acc : List AttemptInfo) (regens : Nat),
      attempt + remaining = M + 1 → 0 < remaining →
      ∃ r, vrGo engine llm d p M remaining attempt odrl acc regens = some r ∧
        r.attempts ≤ M ∧
        (r.success = false → r.attempts = M ∧ r.final_issues ≠ []) := by
  intro remaining
  induction remaining with
  | zero => intro attempt odrl acc regens _ hpos; omega
  | succ n ih =>
    intro attempt odrl acc regens hsum _
    rcases hvalid : (validate_kg engine p odrl).is_valid with _ | _
    · by_cases hM : attempt = M
      · rw [vrGo_step_exhaust engine llm d p M n attempt odrl acc regens hvalid hM]
        exact ⟨_, rfl, Nat.le_refl M,
          fun _ => ⟨rfl, validate_kg_issues_ne_of_invalid engine p odrl hvalid⟩⟩
      · rw [vrGo_step_continue engine llm d p M n attempt odrl acc regens hvalid hM]
        exact ih (attempt + 1) _ _ _ (by omega) (by omega)
    · rw [vrGo_step_valid engine llm d p M n attempt odrl acc regens hvalid]
      refine ⟨_, rfl, ?_, ?_⟩
      · show attempt ≤ M
        omega
      · intro hfalse
        simp at hfalse

/-- If every candidate document fails validation, the loop runs all
`remaining` attempts, fails, makes one transducer call per
non-final attempt, and ends with the violation list of some
document's validation. -/
theorem vrGo_always_invalid (engine : ShaclEngine) (llm : Transducer) (d p : String) (M : Nat)
    (H : ∀ doc, (validate_kg engine p doc).issues ≠ []) :
    ∀ (remaining attempt : Nat) (odrl : String) (acc : List AttemptInfo) (regens : Nat),
      attempt + remaining = M + 1 → 0 < remaining →
      ∃ r, vrGo engine llm d p M remaining attempt odrl acc regens = some r ∧
        r.success = false ∧ r.attempts = M ∧
        r.all_attempts.length = acc.length + remaining ∧
        r.regen_calls = regens + (remaining - 1) ∧
        ∃ doc, r.final_issues = (validate_kg engine p doc).issues := by
  intro remaining
  induction remaining with
  | zero => intro attempt odrl acc regens _ hpos; omega
  | succ n ih =>
    intro attempt odrl acc regens hsum _
    have hvalid : (validate_kg engine p odrl).is_valid = false :=
      validate_kg_invalid_of_ne engine p odrl (H odrl)
    by_cases hM : attempt = M
    · have hn : n = 0 := by omega
      subst hn
      rw [vrGo_step_exhaust engine llm d p M 0 attempt odrl acc regens hvalid hM]
      exact ⟨_, rfl, rfl, rfl, by simp, by simp, odrl, rfl⟩
    · rw [vrGo_step_continue engine llm d p M n attempt odrl acc regens hvalid hM]
      have hcalls := regenerate_calls_of_invalid llm d (validate_kg engine p odrl) hvalid
      rw [hcalls]
      obtain ⟨r, hrun, hsucc, hatt, hlen, hregen, hfin⟩ :=
        ih (attempt + 1) _ _ _ (by omega) (by omega)
      refine ⟨r, hrun, hsucc, hatt, ?_, ?_, hfin⟩
      · rw [hlen]; simp; omega
      · rw [hregen]; omega

/-- If the first `m` validations (from attempt `a + 1` on, validating
`docAt (a + j)`) fail and the validation of `docAt (a + m)` passes,
the loop succeeds at attempt `a + 1 + m` after exactly `m` further
transducer calls. -/
theorem vrGo_success (engine : ShaclEngine) (llm : Transducer)
    (d p odrl0 : String) (M : Nat) :
    ∀ (m remaining a : Nat) (acc : List AttemptInfo) (regens : Nat),
      (a + 1) + remaining = M + 1 → m < remaining →
      (∀ j, j < m →
        (validate_kg engine p (docAt engine llm d p odrl0 (a + j))).is_valid = false) →
      (validate_kg engine p (docAt engine llm d p odrl0 (a + m))).is_valid = true →
      ∃ r, vrGo engine llm d p M remaining (a + 1)
          (docAt engine llm d p odrl0 a) acc regens = some r ∧
        r.success = true ∧ r.attempts = (a + 1) + m ∧ r.regen_calls = regens + m := by
  intro m
  induction m with
  | zero =>
    intro remaining a acc regens hsum hlt hinv hval
    rcases remaining with _ | n
    · omega
    · rw [Nat.add_zero] at hval
      rw [vrGo_step_valid engine llm d p M n (a + 1) _ acc regens hval]
      exact ⟨_, rfl, rfl, by simp, by simp⟩
  | succ m ih =>
    intro remaining a acc regens hsum hlt hinv hval
    rcases remaining with _ | n
    · omega
    · have hinv0 : (validate_kg engine p (docAt engine llm d p odrl0 a)).is_valid = false := by
        have := hinv 0 (by omega)
        rwa [Nat.add_zero] at this
      have hne : a + 1 ≠ M := by omega
      rw [vrGo_step_continue engine llm d p M n (a + 1) _ acc regens hinv0 hne]
      have hdoc : (regenerate llm d
          (validate_kg engine p (docAt engine llm d p odrl0 a))).1.odrl_turtle =
          docAt engine llm d p odrl0 (a + 1) := rfl
      have hcalls := regenerate_calls_of_invalid llm d
        (validate_kg engine p (docAt engine llm d p odrl0 a)) hinv0
      rw [hdoc, hcalls]
      have hinv2 : ∀ j, j < m →
          (validate_kg engine p (docAt engine llm d p odrl0 (a + 1 + j))).is_valid = false := by
        intro j hj
        have := hinv (j + 1) (by omega)
        rwa [show a + (j + 1) = a + 1 + j by omega] at this
      have hval2 : (validate_kg engine p
          (docAt engine llm d p odrl0 (a + 1 + m))).is_valid = true := by
        rwa [show a + (m + 1) = a + 1 + m by omega] at hval
      obtain ⟨r, hrun, hsucc, hatt, hregen⟩ :=
        ih n (a + 1) _ (regens + 1) (by omega) (by omega) hinv2 hval2
      exact ⟨r, hrun, hsucc, by omega, by omega⟩

/-! Generic `List.find?` facts used for first-match-wins
classification. -/

theorem find?_min_of_sorted {α : Type} (key : α → Nat) (p : α → Bool) :
    ∀ (l : List α), l.Pairwise (fun a b => key a < key b) →
    ∀ x, l.find? p = some x → ∀ y ∈ l, p y = true → key x ≤ key y := by
  intro l
  induction l with
  | nil => intro _ x hx; simp at hx
  | cons h t ih =>
    intro hsort x hx y hy hpy
    rcases hph : p h with _ | _
    · rw [List.find?_cons_of_neg _ (by simp [hph])] at hx
      rcases List.mem_cons.mp hy with rfl | hyt
      · rw [hph] at hpy; cases hpy
      · exact ih hsort.of_cons x hx y hyt hpy
    · rw [List.find?_cons_of_pos _ hph] at hx
      injection hx with hx
      subst hx
      rcases List.mem_cons.mp hy with rfl | hyt
      · exact Nat.le_refl _
      · exact Nat.le_of_lt (List.rel_of_pairwise_cons hsort hyt)

theorem find?_isSome_of_mem {α : Type} (p : α → Bool) :
    ∀ (l : List α) (y : α), y ∈ l → p y = true → ∃ x, l.find? p = some x := by
  intro l
  induction l with
  | nil => intro y hy; simp at hy
  | cons h t ih =>
    intro y hy hpy
    rcases hph : p h with _ | _
    · rw [List.find?_cons_of_neg _ (by simp [hph])]
      rcases List.mem_cons.mp hy with rfl | hyt
      · rw [hph] at hpy; cases hpy
      · exact ih y hyt hpy
    · exact ⟨h, List.find?_cons_of_pos _ hph⟩

/-- The strategy table is written in strictly increasing
`detection_order`. -/
theorem conflict_strategies_sorted :
    CONFLICT_STRATEGIES.Pairwise (fun a b => a.detection_order < b.detection_order) := by
  decide

/-- With an engine that always raises, every call of `validate_kg`
produces a non-empty issue list (one converted error issue per
registered validator). -/
theorem errEngine_always_invalid (msg p : String) :
    ∀ doc, (validate_kg (fun _ _ => Except.error msg) p doc).issues ≠ [] := by
  intro doc
  rw [validate_kg_issues]
  simp [run_shacl_validation, policyStructureProcess]

/-! ## Claims -/

/-- C1 (amended): for a positive ceiling the loop always returns a
result with `attempts ≤ max_attempts`; when the result is a failure,
`attempts = max_attempts` and the final validation pass still
reported at least one violation.  (The original claim's "attempts ==
max_attempts only if the final pass had a violation" fails when
validation first succeeds exactly on the final attempt, see the
counterexample.) -/
theorem claim_C1_amended (engine : ShaclEngine) (llm : Transducer)
    (d p odrl : String) (M : Nat) (hM : 0 < M) :
    ∃ r, validate_and_regenerate engine llm d p odrl M = some r ∧
      r.attempts ≤ M ∧
      (r.success = false → r.attempts = M ∧ r.final_issues ≠ []) := by
  unfold validate_and_regenerate
  exact vrGo_budget engine llm d p M M 1 odrl [] 0 (by omega) hM

/-- C1 counterexample: with ceiling 1 and a document that validates
cleanly, the loop returns `attempts = 1 = max_attempts` although the
final (only) validation pass reported zero violations — refuting
"attempts == max_attempts only if the final validation pass still
reported at least one violation". -/
theorem claim_C1_counterexample :
    (validate_and_regenerate (fun _ _ => Except.ok []) (fun _ => "x") "2026-01-01"
        "p" "doc" 1).map
      (fun r => (r.success, r.attempts, r.all_attempts.map (fun a => a.issues.length))) =
    some (true, 1, [0]) := by
  decide

/-- C1 witness: the amended statement at a concrete always-failing
engine with ceiling 3. -/
theorem claim_C1_witness :
    ∃ r, validate_and_regenerate (fun _ _ => Except.error "boom") (fun _ => "x")
        "2026-01-01" "p" "doc" 3 = some r ∧
      r.attempts ≤ 3 ∧ (r.success = false → r.attempts = 3 ∧ r.final_issues ≠ []) :=
  claim_C1_amended _ _ _ _ _ 3 (by decide)

/-- C2: with ceiling 3, if every candidate document still validates
with at least one violation, the loop performs exactly 3 validation
passes (one per recorded attempt) and exactly 2 transducer calls, and
returns a failure — regeneration is never invoked on the final
attempt. -/
theorem claim_C2_exhausted_budget (engine : ShaclEngine) (llm : Transducer)
    (d p odrl : String)
    (H : ∀ doc, (validate_kg engine p doc).issues ≠ []) :
    ∃ r, validate_and_regenerate engine llm d p odrl 3 = some r ∧
      r.success = false ∧ r.attempts = 3 ∧
      r.all_attempts.length = 3 ∧ r.regen_calls = 2 := by
  unfold validate_and_regenerate
  obtain ⟨r, hrun, hs, ha, hlen, hregen, -⟩ :=
    vrGo_always_invalid engine llm d p 3 H 3 1 odrl [] 0 (by omega) (by omega)
  exact ⟨r, hrun, hs, ha, by simpa using hlen, by simpa using hregen⟩

/-- C2 witness: the statement at a concrete engine whose every call
raises, so every document keeps at least one violation. -/
theorem claim_C2_witness :
    ∃ r, validate_and_regenerate (fun _ _ => Except.error "boom") (fun _ => "x")
        "2026-01-01" "p" "doc" 3 = some r ∧
      r.success = false ∧ r.attempts = 3 ∧
      r.all_attempts.length = 3 ∧ r.regen_calls = 2 :=
  claim_C2_exhausted_budget _ _ _ _ _ (errEngine_always_invalid "boom" "p")

/-- C3: if validation reports zero violations on attempt `k` (for any
`k` up to the ceiling, the earlier attempts failing), the loop
terminates immediately with success and `attempts = k`, and the
transducer is not invoked after that point: exactly `k - 1` calls in
total. -/
theorem claim_C3_early_success (engine : ShaclEngine) (llm : Transducer)
    (d p odrl : String) (M k : Nat) (hk1 : 1 ≤ k) (hk2 : k ≤ M)
    (hinv : ∀ j, j + 1 < k →
      (validate_kg engine p (docAt engine llm d p odrl j)).is_valid = false)
    (hval : (validate_kg engine p (docAt engine llm d p odrl (k - 1))).is_valid = true) :
    ∃ r, validate_and_regenerate engine llm d p odrl M = some r ∧
      r.success = true ∧ r.attempts = k ∧ r.regen_calls = k - 1 := by
  rcases k with _ | m
  · omega
  · unfold validate_and_regenerate
    have hinv2 : ∀ j, j < m →
        (validate_kg engine p (docAt engine llm d p odrl (0 + j))).is_valid = false := by
      intro j hj
      have := hinv j (by omega)
      rwa [Nat.zero_add]
    have hval2 : (validate_kg engine p
        (docAt engine llm d p odrl (0 + m))).is_valid = true := by
      simpa using hval
    obtain ⟨r, hrun, hs, ha, hregen⟩ :=
      vrGo_success engine llm d p odrl M m M 0 [] 0 (by omega) (by omega) hinv2 hval2
    exact ⟨r, hrun, hs, by omega, by omega⟩

/-- C3 witness: an engine that rejects the initial document "doc0"
and accepts the regenerated "doc1"; success at attempt 2 of a ceiling
of 3, with exactly one transducer call. -/
theorem claim_C3_witness :
    ∃ r, validate_and_regenerate
        (fun data _ => if data == "doc0" then Except.error "bad" else Except.ok [])
        (fun _ => "doc1") "2026-01-01" "p" "doc0" 3 = some r ∧
      r.success = true ∧ r.attempts = 2 ∧ r.regen_calls = 2 - 1 :=
  claim_C3_early_success _ _ _ _ _ 3 2 (by decide) (by decide)
    (by
      intro j hj
      have hj0 : j = 0 := by omega
      subst hj0
      decide)
    (by decide)

/-- C4: for every pair of inputs, the `ValidationReport` returned by
`validate_kg` has `is_valid = true` iff its issue list is empty: the
flag and the list never disagree. -/
theorem claim_C4_is_valid_iff_empty (engine : ShaclEngine) (u k : String) :
    (validate_kg engine u k).is_valid = true ↔ (validate_kg engine u k).issues = [] :=
  validate_kg_is_valid_iff engine u k

/-- C5: for any conflict signal satisfying the trigger of at least
one strategy, `classify` returns the conflict type of a matching
strategy whose `detection_order` is minimal among all matches; in
particular the signal with keyword "urgent" classifies to
unmeasurable-terms.  (`classify` is modelled from the spec; the
strategy table is the source's `CONFLICT_STRATEGIES`.) -/
theorem claim_C5_priority_classification :
    (∀ (signal : ConflictSignal) (s : ConflictDetectionStrategy),
        s ∈ CONFLICT_STRATEGIES → matchesStrategy signal s = true →
        ∃ smin, smin ∈ CONFLICT_STRATEGIES ∧ matchesStrategy signal smin = true ∧
          classify signal = some smin.conflict_type ∧
          ∀ s2 ∈ CONFLICT_STRATEGIES, matchesStrategy signal s2 = true →
            smin.detection_order ≤ s2.detection_order) ∧
    classify { keywords := ["urgent"], structural := [] } =
      some ConflictType.UNMEASURABLE := by
  constructor
  · intro signal s hs hm
    obtain ⟨x, hx⟩ := find?_isSome_of_mem (matchesStrategy signal) CONFLICT_STRATEGIES s hs hm
    refine ⟨x, List.mem_of_find?_eq_some hx, List.find?_some hx, ?_, ?_⟩
    · unfold classify
      rw [hx]
      rfl
    · intro s2 hs2 hm2
      exact find?_min_of_sorted (fun a => a.detection_order) (matchesStrategy signal)
        CONFLICT_STRATEGIES conflict_strategies_sorted x hx s2 hs2 hm2
  · decide

/-- C5 witness: the first-match-wins statement at the concrete signal
whose keyword hit is "urgent", matched strategy taken as the head of
the table. -/
theorem claim_C5_witness :
    ∃ smin, smin ∈ CONFLICT_STRATEGIES ∧
      matchesStrategy { keywords := ["urgent"], structural := [] } smin = true ∧
      classify { keywords := ["urgent"], structural := [] } = some smin.conflict_type ∧
      ∀ s2 ∈ CONFLICT_STRATEGIES,
        matchesStrategy { keywords := ["urgent"], structural := [] } s2 = true →
        smin.detection_order ≤ s2.detection_order :=
  claim_C5_priority_classification.1 { keywords := ["urgent"], structural := [] }
    (CONFLICT_STRATEGIES.headD default) (by decide) (by decide)

/-- C6 (amended): the strategy table has 8 entries; each of the 14
`ConflictType` members has AT MOST one strategy entry, and the
`detection_order` priorities are pairwise distinct.  (The original
"exactly one for all 14" is refuted: six types — spatial-overlap,
temporal-impossible, action-subsumption, action-conflict,
workflow-cycle, party-inconsistency — have no entry.) -/
theorem claim_C6_amended :
    CONFLICT_STRATEGIES.length = 8 ∧
    (∀ t ∈ ConflictType.members,
        CONFLICT_STRATEGIES.countP (fun s => s.conflict_type == t) ≤ 1) ∧
    CONFLICT_STRATEGIES.Pairwise (fun a b => a.detection_order ≠ b.detection_order) := by
  refine ⟨rfl, by decide, ?_⟩
  exact conflict_strategies_sorted.imp (fun h => Nat.ne_of_lt h)

/-- C6 counterexample: it is not the case that every `ConflictType`
member has exactly one strategy entry (e.g. `SPATIAL_OVERLAP` has
none). -/
theorem claim_C6_counterexample :
    ¬ (∀ t ∈ ConflictType.members,
        CONFLICT_STRATEGIES.countP (fun s => s.conflict_type == t) = 1) := by
  decide

/-- C6 witness: the at-most-one part at the concrete member
`UNMEASURABLE`. -/
theorem claim_C6_witness :
    CONFLICT_STRATEGIES.countP
      (fun s => s.conflict_type == ConflictType.UNMEASURABLE) ≤ 1 :=
  claim_C6_amended.2.1 ConflictType.UNMEASURABLE (by decide)

/-- C7 (amended): `validate_kg` registers only the policy-structure
and constraint-structure validators (the compatibility validator is
commented out of `__init__`), so every issue it reports has severity
"Violation" and no operand/operator-incompatibility warning is ever
produced; the unregistered `ConstraintCompatibilityValidator` would
give each of its issues severity "Warning" and issue type
"Operator Compatibility". -/
theorem claim_C7_amended :
    (∀ (engine : ShaclEngine) (u k : String) (i : ValidationIssue),
        i ∈ (validate_kg engine u k).issues → i.severity = "Violation") ∧
    (∀ (violations : List ShaclViolation) (i : ValidationIssue),
        i ∈ constraintCompatibilityProcess violations →
        i.severity = "Warning" ∧ i.issue_type = "Operator Compatibility") :=
  ⟨fun engine u k i hi => validate_kg_severity engine u k i hi,
   fun violations i hi => constraintCompatibilityProcess_severity violations i hi⟩

/-- C7 counterexample: a document whose constraint pairs operand
`count` with operator `isAnyOf` (outside `count`'s compatible set)
yields NO Warning-severity issue and no "Operator Compatibility"
issue from `validate_kg` — the compatibility validator is not
registered — refuting "reports exactly one operand-operator
incompatibility violation with severity Warning". -/
theorem claim_C7_counterexample :
    ((validate_kg (fun _ _ => Except.ok [])
        "Researchers can use the dataset at most 5 times"
        "@prefix odrl: <http://www.w3.org/ns/odrl/2/> . @prefix ex: <http://example.com/> . ex:p a odrl:Policy ; odrl:uid ex:p ; odrl:permission [ a odrl:Permission ; odrl:action odrl:use ; odrl:constraint [ a odrl:Constraint ; odrl:leftOperand odrl:count ; odrl:operator odrl:isAnyOf ; odrl:rightOperand 5 ] ] .").issues.filter
        (fun i => i.severity == "Warning")).length = 0 ∧
    ((validate_kg (fun _ _ => Except.ok [])
        "Researchers can use the dataset at most 5 times"
        "@prefix odrl: <http://www.w3.org/ns/odrl/2/> . @prefix ex: <http://example.com/> . ex:p a odrl:Policy ; odrl:uid ex:p ; odrl:permission [ a odrl:Permission ; odrl:action odrl:use ; odrl:constraint [ a odrl:Constraint ; odrl:leftOperand odrl:count ; odrl:operator odrl:isAnyOf ; odrl:rightOperand 5 ] ] .").issues.filter
        (fun i => i.issue_type == "Operator Compatibility")).length = 0 := by
  constructor <;> decide

/-- C7 witness: the amended statement at concrete inputs — a
converted error issue from `validate_kg` has severity "Violation",
and a compatibility issue built from an empty violation dict has
severity "Warning". -/
theorem claim_C7_witness :
    (((validate_kg (fun _ _ => Except.error "boom") "u" "doc").issues.headD
        default).severity = "Violation") ∧
    (((constraintCompatibilityProcess [({} : ShaclViolation)]).headD default).severity = "Warning") :=
  ⟨claim_C7_amended.1 (fun _ _ => Except.error "boom") "u" "doc" _ (by decide),
   (claim_C7_amended.2 [({} : ShaclViolation)] _ (by decide)).1⟩

/-- C8 (amended): a parse/SHACL error during an attempt is caught
inside `_run_shacl_validation` and converted into a single ordinary
violation dict with message "Validation error: ..."; the loop treats
the resulting ordinary Violation-severity issues like any others and
keeps retrying until the budget is exhausted — no error annotated
with the attempt index is propagated.  (This refutes the original
claim that such failures are fatal and propagated.) -/
theorem claim_C8_amended :
    (∀ (engine : ShaclEngine) (data shape msg : String),
        engine data shape = Except.error msg →
        run_shacl_validation engine data shape =
          [{ message := some ("Validation error: " ++ msg),
             focus_node := some "", value := some "",
             source_constraint_component := some "", result_path := some "" }]) ∧
    (∀ (msg : String) (llm : Transducer) (d p odrl : String) (M : Nat), 0 < M →
        ∃ r, validate_and_regenerate (fun _ _ => Except.error msg) llm d p odrl M =
            some r ∧
          r.success = false ∧ r.attempts = M ∧ r.final_issues ≠ [] ∧
          ∀ i ∈ r.final_issues, i.severity = "Violation") := by
  constructor
  · intro engine data shape msg h
    unfold run_shacl_validation
    rw [h]
  · intro msg llm d p odrl M hM
    unfold validate_and_regenerate
    obtain ⟨r, hrun, hs, ha, hlen, hregen, doc, hfin⟩ :=
      vrGo_always_invalid (fun _ _ => Except.error msg) llm d p M
        (errEngine_always_invalid msg p) M 1 odrl [] 0 (by omega) hM
    refine ⟨r, hrun, hs, ha, ?_, ?_⟩
    · rw [hfin]
      exact errEngine_always_invalid msg p doc
    · intro i hi
      rw [hfin] at hi
      exact validate_kg_severity _ _ _ i hi

/-- C8 counterexample: with an engine whose every call raises "parse
failure" and ceiling 3, the loop completes normally (no propagated
error), retries to budget exhaustion with 2 transducer calls, and its
final issues are the two ordinary converted issues — refuting "fatal
to that attempt and propagated ... does not convert the failure into
an ordinary violation and silently continue retrying". -/
theorem claim_C8_counterexample :
    (validate_and_regenerate (fun _ _ => Except.error "parse failure") (fun _ => "x")
        "2026-01-01" "p" "doc" 3).map
      (fun r => (r.success, r.attempts, r.regen_calls,
          r.final_issues.map (fun i => (i.issue_type, i.severity)))) =
    some (false, 3, 2,
      [("Policy Structure Error", "Violation"),
       ("Constraint Structure Error", "Violation")]) := by
  decide

/-- C8 witness: the amended statement at concrete inputs. -/
theorem claim_C8_witness :
    run_shacl_validation (fun _ _ => Except.error "boom") "data" "shape" =
      [{ message := some ("Validation error: " ++ "boom"),
         focus_node := some "", value := some "",
         source_constraint_component := some "", result_path := some "" }] ∧
    ∃ r, validate_and_regenerate (fun _ _ => Except.error "boom") (fun _ => "x")
        "2026-01-01" "p2" "doc" 2 = some r ∧
      r.success = false ∧ r.attempts = 2 ∧ r.final_issues ≠ [] ∧
      ∀ i ∈ r.final_issues, i.severity = "Violation" :=
  ⟨claim_C8_amended.1 _ "data" "shape" "boom" rfl,
   claim_C8_amended.2 "boom" _ "2026-01-01" "p2" "doc" 2 (by decide)⟩

/-- C9: `validate_kg` is deterministic — two calls on the same
(unchanged) inputs with the same validator configuration produce
identical issue lists, equal in content and order, and identical
reports.  (In this embedding the SHACL engine is an oracle function
of its inputs, so the tool's pipeline introduces no hidden state.) -/
theorem claim_C9_deterministic (engine : ShaclEngine) (u k u2 k2 : String)
    (hu : u2 = u) (hk : k2 = k) :
    (validate_kg engine u2 k2).issues = (validate_kg engine u k).issues ∧
    validate_kg engine u2 k2 = validate_kg engine u k := by
  subst hu
  subst hk
  exact ⟨rfl, rfl⟩

/-- C9 witness: the determinism statement at concrete inputs. -/
theorem claim_C9_witness :
    (validate_kg (fun _ _ => Except.ok []) "u" "kg").issues =
      (validate_kg (fun _ _ => Except.ok []) "u" "kg").issues ∧
    validate_kg (fun _ _ => Except.ok []) "u" "kg" =
      validate_kg (fun _ _ => Except.ok []) "u" "kg" :=
  claim_C9_deterministic _ "u" "kg" "u" "kg" rfl rfl

/-- C10: when the validation report is already valid, `regenerate`
returns the report's generated document text unchanged with
`regenerated = false` and performs zero transducer calls. -/
theorem claim_C10_regenerate_noop (llm : Transducer) (d : String)
    (r : ValidationReport) (h : r.is_valid = true) :
    regenerate llm d r = ({ odrl_turtle := r.generated_kg, regenerated := false }, 0) :=
  regenerate_of_valid llm d r h

/-- C10 witness: the no-op statement at a concrete valid report and a
transducer that would change the text if it were called. -/
theorem claim_C10_witness :
    regenerate (fun _ => "changed") "2026-01-01"
      { user_text := "u", generated_kg := "kg", is_valid := true, issues := [] } =
    ({ odrl_turtle := "kg", regenerated := false }, 0) :=
  claim_C10_regenerate_noop _ _ _ rfl

end ODRL
